import Mathlib

/-!
Shallow embedding of the CityGuard game simulation core
(src/unnamed/part_000, first GameCanvas variant, lines 1-1536, together with
the entity types of src/unnamed/part_001).

Modelling conventions:
* JavaScript floating point numbers are modelled by exact rationals.
* A comparison of the form Math.hypot(a, b) < r is modelled by the
  equivalent squared comparison 0 < r and a^2 + b^2 < r^2 (Math.hypot is
  always nonnegative), so no square root is needed for collision tests.
* Where the code stores an actual Euclidean length or normalises a
  direction (Math.hypot as a value, Math.cos/Math.sin of Math.atan2), the
  tick takes an oracle function hypot measuring sqrt (dx^2 + dy^2); the
  Wobbly offset takes an oracle sinq for Math.sin.  All theorems below are
  universally quantified over these oracles.
* Entity identities (Date.now() + Math.random() in the code) are modelled
  by a fresh-identity counter nextId threaded through the tick.
* React UI setters (setDisplayTime, setComboProgress, ...) are rendering
  concerns and are not part of the simulation state; the score itself
  (setDisplayScore) is simulation state and is modelled.
-/

/-- A 2D point, as in the Point interface of the types file. -/
structure Pt where
  x : ℚ
  y : ℚ
deriving DecidableEq

/-- Enemy archetypes, from the EnemyType enum. -/
inductive EnemyType where
  | STANDARD | FAST | HEAVY | WOBBLY | BULLET | LASER | BOMB
deriving DecidableEq

/-- Difficulty selector, from the Difficulty enum. -/
inductive Difficulty where
  | EASY | MEDIUM | HARD
deriving DecidableEq

/-- Session phases, from the GameState enum. -/
inductive GameState where
  | MENU | PLAYING | LEVEL_COMPLETE | GAME_OVER | PAUSED
deriving DecidableEq

/-- Upgrade levels, from the UpgradeStats interface.  Fields are integers
so that malformed (negative) inputs can be expressed. -/
structure UpgradeStats where
  speedLevel : ℤ
  radiusLevel : ℤ
  rateLevel : ℤ
  turretLevel : ℤ
  shieldLevel : ℤ
  targetingLevel : ℤ
deriving DecidableEq

/-- Building record, from the Building interface. -/
structure Building where
  id : ℕ
  x : ℚ
  y : ℚ
  width : ℚ
  height : ℚ
  isDestroyed : Bool
deriving DecidableEq

/-- Enemy record, from the EnemyMissile interface. -/
structure Enemy where
  id : ℕ
  type : EnemyType
  x : ℚ
  y : ℚ
  startX : ℚ
  startY : ℚ
  targetX : ℚ
  targetY : ℚ
  totalDistance : ℚ
  traveledDistance : ℚ
  speed : ℚ
  color : String
  trail : List Pt
  health : ℤ
  maxHealth : ℤ
  hitByExplosionIds : List ℕ
deriving DecidableEq

/-- Interceptor record, from the Interceptor interface. -/
structure Interceptor where
  id : ℕ
  x : ℚ
  y : ℚ
  startX : ℚ
  startY : ℚ
  targetX : ℚ
  targetY : ℚ
  speed : ℚ
  exploded : Bool
  trail : List Pt
deriving DecidableEq

/-- Turret projectile record, from the Projectile interface. -/
structure Projectile where
  id : ℕ
  x : ℚ
  y : ℚ
  velocityX : ℚ
  velocityY : ℚ
  speed : ℚ
  trail : List Pt
deriving DecidableEq

/-- Explosion record, from the Explosion interface. -/
structure Explosion where
  id : ℕ
  x : ℚ
  y : ℚ
  currentRadius : ℚ
  maxRadius : ℚ
  alpha : ℚ
deriving DecidableEq

/-- const LEVEL_DURATION = 30 (seconds). -/
def LEVEL_DURATION : ℚ := 30

/-- const COMBO_TIMEOUT = 2500 (milliseconds). -/
def COMBO_TIMEOUT : ℚ := 2500

/-- interceptorSpeed = 600 + upgradeStats.speedLevel * 150. -/
def interceptorSpeed (u : UpgradeStats) : ℚ := 600 + (u.speedLevel : ℚ) * 150

/-- explosionMaxRadius = 60 + upgradeStats.radiusLevel * 15. -/
def explosionMaxRadius (u : UpgradeStats) : ℚ := 60 + (u.radiusLevel : ℚ) * 15

/-- fireCooldown = Math.max(100, 500 - upgradeStats.rateLevel * 50). -/
def fireCooldown (u : UpgradeStats) : ℚ := max 100 (500 - (u.rateLevel : ℚ) * 50)

/-- shieldMaxEnergy = upgradeStats.shieldLevel * 100. -/
def shieldMaxEnergy (u : UpgradeStats) : ℚ := (u.shieldLevel : ℚ) * 100

/-- turretCooldown = Math.max(200, 1000 - upgradeStats.turretLevel * 100). -/
def turretCooldown (u : UpgradeStats) : ℚ := max 200 (1000 - (u.turretLevel : ℚ) * 100)

/-- The comparison Math.hypot(dx, dy) < r, expressed without square roots:
Math.hypot is nonnegative, so the comparison holds exactly when r is
positive and dx^2 + dy^2 < r^2. -/
def distLtB (dx dy r : ℚ) : Bool :=
  decide (0 < r) && decide (dx ^ 2 + dy ^ 2 < r ^ 2)

/-- Per-tick combo timeout check (start of the gameplay part of update):
if the multiplier is above 1 and the time since the last kill exceeds
COMBO_TIMEOUT, the multiplier resets to 1. -/
def comboCheck (mult : ℕ) (now lastKillTime : ℚ) : ℕ :=
  if 1 < mult ∧ COMBO_TIMEOUT < now - lastKillTime then 1 else mult

/-- Combo update inside handleKill: a kill within COMBO_TIMEOUT of the
previous one increments the multiplier (capped at 10), otherwise the
multiplier resets to 1 before scoring this kill. -/
def killComboUpdate (mult : ℕ) (now lastKillTime : ℚ) : ℕ :=
  if now - lastKillTime < COMBO_TIMEOUT then min (mult + 1) 10 else 1

/-- Base score by enemy type inside handleKill. -/
def baseScoreOf : EnemyType → ℚ
  | EnemyType.STANDARD => 10
  | EnemyType.FAST => 20
  | EnemyType.BULLET => 25
  | EnemyType.WOBBLY => 30
  | EnemyType.LASER => 35
  | EnemyType.HEAVY => 40
  | EnemyType.BOMB => 40

/-- Difficulty multiplier for score inside handleKill. -/
def scoreDiffMult : Difficulty → ℚ
  | Difficulty.HARD => 3 / 2
  | Difficulty.EASY => 4 / 5
  | Difficulty.MEDIUM => 1

/-- Shield energy decrement on absorption: energy -= 30, then clamped at
zero (if it went negative it is set to 0). -/
def shieldDrain (energy : ℚ) : ℚ :=
  if energy - 30 < 0 then 0 else energy - 30

/-- The shield absorption radius used in the SHIELD COLLISION block:
visualShieldRadius = 180 * (0.9 + 0.1 * (energy / shieldMaxEnergy)). -/
def shieldRadius (u : UpgradeStats) (energy : ℚ) : ℚ :=
  180 * (9 / 10 + (1 / 10) * (energy / shieldMaxEnergy u))

/-- The full guard of the SHIELD COLLISION block: shieldLevel > 0, shield
energy > 0, and the enemy within visualShieldRadius of the shield
position (dx, dy are the offsets of the enemy from the shield centre). -/
def shieldAbsorbs (u : UpgradeStats) (energy dx dy : ℚ) : Bool :=
  decide (0 < u.shieldLevel) && decide (0 < energy) &&
    distLtB dx dy (shieldRadius u energy)

/-- One step of the Update Explosions loop for a single explosion:
the radius always grows by 100 * dt; once it is above maxRadius the alpha
fades by 2 * dt, and the explosion is removed (none) when alpha drops to
or below zero. -/
def updateExplosion (dt : ℚ) (e : Explosion) : Option Explosion :=
  let e1 : Explosion := { e with currentRadius := e.currentRadius + 100 * dt }
  if e1.maxRadius < e1.currentRadius then
    let e2 : Explosion := { e1 with alpha := e1.alpha - 2 * dt }
    if e2.alpha ≤ 0 then none else some e2
  else some e1

/-- Spawn Rate Logic: baseRate = Math.max(0.4, 2.5 - level * 0.15). -/
def baseSpawnRate (level : ℕ) : ℚ := max (2 / 5) (5 / 2 - (level : ℚ) * (3 / 20))

/-- Spawn rate difficulty modifier: 1.3 on EASY, 0.7 on HARD, 1 otherwise. -/
def spawnRateMod : Difficulty → ℚ
  | Difficulty.EASY => 13 / 10
  | Difficulty.HARD => 7 / 10
  | Difficulty.MEDIUM => 1

/-- The interval added to the level time to schedule the next spawn:
Math.random() * (baseRate * rateMod), where r stands for the draw of
Math.random(). -/
def spawnInterval (level : ℕ) (d : Difficulty) (r : ℚ) : ℚ :=
  r * (baseSpawnRate level * spawnRateMod d)

/-- Global speed modifier by difficulty inside getEnemyConfig. -/
def difficultySpeedMod : Difficulty → ℚ
  | Difficulty.EASY => 4 / 5
  | Difficulty.HARD => 5 / 4
  | Difficulty.MEDIUM => 1

/-- Unlock thresholds (fastStart, bombStart, heavyStart, bulletStart,
wobblyStart, laserStart) by difficulty, from getEnemyConfig. -/
def typeStarts (d : Difficulty) : ℕ × ℕ × ℕ × ℕ × ℕ × ℕ :=
  match d with
  | Difficulty.EASY => (3, 4, 6, 7, 8, 9)
  | Difficulty.HARD => (1, 2, 3, 3, 5, 5)
  | Difficulty.MEDIUM => (2, 3, 4, 5, 6, 7)

/-- The availableTypes list built in getEnemyConfig: STANDARD always,
then each unlocked type pushed in the fixed order. -/
def availableTypes (level : ℕ) (d : Difficulty) : List EnemyType :=
  let s := typeStarts d
  EnemyType.STANDARD ::
    ((if s.1 ≤ level then [EnemyType.FAST] else []) ++
     (if s.2.1 ≤ level then [EnemyType.BOMB] else []) ++
     (if s.2.2.1 ≤ level then [EnemyType.HEAVY] else []) ++
     (if s.2.2.2.1 ≤ level then [EnemyType.BULLET] else []) ++
     (if s.2.2.2.2.1 ≤ level then [EnemyType.WOBBLY] else []) ++
     (if s.2.2.2.2.2 ≤ level then [EnemyType.LASER] else []))

/-- The weighted type selection of getEnemyConfig; r1 is the first draw
(rand) and r2 the draw used to index into availableTypes. -/
def chooseEnemyType (level : ℕ) (d : Difficulty) (r1 r2 : ℚ) : EnemyType :=
  let avail := availableTypes level d
  let t0 :=
    if 1 < avail.length then
      if (2 : ℚ) / 5 < r1 then
        avail.getD ((Int.floor (r2 * ((avail.length : ℚ) - 1))).toNat + 1)
          EnemyType.STANDARD
      else EnemyType.STANDARD
    else EnemyType.STANDARD
  if d = Difficulty.HARD ∧ 3 ≤ level ∧ (9 : ℚ) / 10 < r1 then EnemyType.FAST
  else t0

/-- Per-type speed multiplier from the switch in getEnemyConfig. -/
def typeSpeedMultiplier : EnemyType → ℚ
  | EnemyType.STANDARD => 1
  | EnemyType.FAST => 8 / 5
  | EnemyType.HEAVY => 1 / 2
  | EnemyType.WOBBLY => 4 / 5
  | EnemyType.BOMB => 3 / 5
  | EnemyType.BULLET => 11 / 5
  | EnemyType.LASER => 5 / 2

/-- Per-type colour from the switch in getEnemyConfig. -/
def typeColor : EnemyType → String
  | EnemyType.STANDARD => "#ef4444"
  | EnemyType.FAST => "#facc15"
  | EnemyType.HEAVY => "#c2410c"
  | EnemyType.WOBBLY => "#d946ef"
  | EnemyType.BOMB => "#1e293b"
  | EnemyType.BULLET => "#cbd5e1"
  | EnemyType.LASER => "#a3e635"

/-- Per-tick configuration: canvas size, level, difficulty, upgrades, the
mathematical oracles (hypot for Math.hypot used as a value, sinq for
Math.sin), and the Math.random() draws consumed by the spawn block of
this tick (rB building pick, rSX start x, r1 and r2 the getEnemyConfig
draws, rJ the speed jitter, rI the spawn interval draw). -/
structure Config where
  width : ℚ
  height : ℚ
  level : ℕ
  difficulty : Difficulty
  upgrades : UpgradeStats
  hypot : ℚ → ℚ → ℚ
  sinq : ℚ → ℚ
  rB : ℚ
  rSX : ℚ
  r1 : ℚ
  r2 : ℚ
  rJ : ℚ
  rI : ℚ

/-- The mutable simulation state held in the refs of the component. -/
structure SimState where
  buildings : List Building
  enemies : List Enemy
  interceptors : List Interceptor
  projectiles : List Projectile
  explosions : List Explosion
  shieldEnergy : ℚ
  shieldHitTime : ℚ
  lastTurretFireTime : ℚ
  multiplier : ℕ
  lastKillTime : ℚ
  lastTime : ℚ
  levelTime : ℚ
  nextSpawnTime : ℚ
  lastShotTime : ℚ
  score : ℤ
  buildingsLostInLevel : ℕ
  enemiesDestroyed : ℕ
  warningPlayed : Bool
  nextId : ℕ
deriving DecidableEq

/-- The handleKill helper of update: bumps the destroyed counter, applies
the combo rule, stamps the kill time and adds
ceil(baseScore * difficultyMultiplier * multiplier) to the score. -/
def handleKill (d : Difficulty) (now : ℚ) (e : Enemy) (st : SimState) : SimState :=
  let mult := killComboUpdate st.multiplier now st.lastKillTime
  { st with
    enemiesDestroyed := st.enemiesDestroyed + 1
    multiplier := mult
    lastKillTime := now
    score := st.score + Int.ceil (baseScoreOf e.type * scoreDiffMult d * (mult : ℚ)) }

/-- trail.push(p) followed by trail.shift() whenever the length exceeds
the bound. -/
def pushTrail (t : List Pt) (p : Pt) (bound : ℕ) : List Pt :=
  let t1 := t ++ [p]
  if bound < t1.length then t1.tail else t1

/-- Movement part of the turret projectile loop: advance by velocity and
record the trail (bounded at 5). -/
def projMove (dt : ℚ) (p : Projectile) : Projectile :=
  let x := p.x + p.velocityX * dt
  let y := p.y + p.velocityY * dt
  { p with x := x, y := y, trail := pushTrail p.trail ⟨x, y⟩ 5 }

/-- Result of the inner enemy scan of the projectile hit check. -/
inductive HitOutcome where
  | miss
  | damaged (e : Enemy)
  | killed (e : Enemy)

/-- The inner hit-check loop of the projectile phase: the enemy array is
scanned from its last index downwards and the first enemy within
distance 20 takes one point of damage; it is removed when its health
drops to or below zero.  In this recursion the tail of the list (the
higher indices) is processed first, matching the reverse iteration. -/
def enemyHitScan (px py : ℚ) : List Enemy → List Enemy × HitOutcome
  | [] => ([], HitOutcome.miss)
  | e :: es =>
    match enemyHitScan px py es with
    | (es1, HitOutcome.miss) =>
      if distLtB (px - e.x) (py - e.y) 20 then
        let e1 : Enemy := { e with health := e.health - 1 }
        if e1.health ≤ 0 then (es1, HitOutcome.killed e1)
        else (e1 :: es1, HitOutcome.damaged e1)
      else (e :: es1, HitOutcome.miss)
    | (es1, r) => (e :: es1, r)

/-- One iteration of the turret projectile loop (movement, bounds check,
hit check); returns the surviving projectile, if any, and the updated
shared state. -/
def projStep (cfg : Config) (now dt : ℚ) (p : Projectile) (st : SimState) :
    Option Projectile × SimState :=
  let p1 := projMove dt p
  if p1.x < 0 ∨ cfg.width < p1.x ∨ p1.y < 0 then (none, st)
  else
    match enemyHitScan p1.x p1.y st.enemies with
    | (es, HitOutcome.miss) => (some p1, { st with enemies := es })
    | (es, HitOutcome.damaged e) =>
      (none, { st with
                enemies := es
                explosions := st.explosions ++ [⟨st.nextId, e.x, e.y, 2, 10, 1⟩]
                nextId := st.nextId + 1 })
    | (es, HitOutcome.killed e) =>
      let st1 : SimState := { st with
        enemies := es
        explosions := st.explosions ++ [⟨st.nextId, e.x, e.y, 5, 30, 1⟩]
        nextId := st.nextId + 1 }
      (none, handleKill cfg.difficulty now e st1)

/-- The turret projectile loop; the array is iterated from its last index
downwards, so the tail of the list is processed first. -/
def projLoop (cfg : Config) (now dt : ℚ) :
    List Projectile → SimState → List Projectile × SimState
  | [], st => ([], st)
  | p :: ps, st =>
    let r := projLoop cfg now dt ps st
    match projStep cfg now dt p r.2 with
    | (some p1, st2) => (p1 :: r.1, st2)
    | (none, st2) => (r.1, st2)

/-- Step 5 of update: move turret projectiles and resolve their hits. -/
def projectilesStep (cfg : Config) (now dt : ℚ) (st : SimState) : SimState :=
  let r := projLoop cfg now dt st.projectiles st
  { r.2 with projectiles := r.1 }

/-- One iteration of the interceptor loop: trail update, snap-and-explode
when within one tick of travel of the fixed target, otherwise advance
along the bearing. -/
def interStep (cfg : Config) (dt : ℚ) (m : Interceptor) (st : SimState) :
    Option Interceptor × SimState :=
  let dx := m.targetX - m.x
  let dy := m.targetY - m.y
  let trail := pushTrail m.trail ⟨m.x, m.y⟩ 20
  if distLtB dx dy (m.speed * dt) then
    (none, { st with
      explosions := st.explosions ++
        [⟨st.nextId, m.targetX, m.targetY, 1, explosionMaxRadius cfg.upgrades, 1⟩],
      nextId := st.nextId + 1 })
  else
    let h := cfg.hypot dx dy
    (some { m with x := m.x + dx / h * m.speed * dt,
                   y := m.y + dy / h * m.speed * dt,
                   trail := trail }, st)

/-- The interceptor loop (reverse iteration, tail processed first). -/
def interLoop (cfg : Config) (dt : ℚ) :
    List Interceptor → SimState → List Interceptor × SimState
  | [], st => ([], st)
  | m :: ms, st =>
    let r := interLoop cfg dt ms st
    match interStep cfg dt m r.2 with
    | (some m1, st2) => (m1 :: r.1, st2)
    | (none, st2) => (r.1, st2)

/-- Step 6 of update: move interceptors and detonate the arrived ones. -/
def interceptorsStep (cfg : Config) (dt : ℚ) (st : SimState) : SimState :=
  let r := interLoop cfg dt st.interceptors st
  { r.2 with interceptors := r.1 }

/-- The closest-enemy search of the auto-turret (forEach over the enemy
array, keeping the strictly closest candidate whose y is above the
ground exclusion band); distances are compared through their squares. -/
def closestScan (ch tx ty : ℚ) (es : List Enemy) : Option (ℚ × Enemy) :=
  es.foldl (fun best e =>
    let d2 := (e.x - tx) ^ 2 + (e.y - ty) ^ 2
    let better : Bool :=
      match best with
      | none => true
      | some bd => decide (d2 < bd.1)
    if better ∧ e.y < ch - 100 then some (d2, e) else best) none

/-- Step 4 of update: the auto-turret fires at the closest valid enemy
when its cooldown has elapsed. -/
def turretStep (cfg : Config) (now : ℚ) (st : SimState) : SimState :=
  if 0 < cfg.upgrades.turretLevel ∧
      turretCooldown cfg.upgrades < now - st.lastTurretFireTime then
    let tx : ℚ := 60
    let ty : ℚ := cfg.height - 40
    match closestScan cfg.height tx ty st.enemies with
    | none => st
    | some de =>
      let dx := de.2.x - tx
      let dy := de.2.y - ty
      let h := cfg.hypot dx dy
      { st with
        projectiles := st.projectiles ++
          [⟨st.nextId, tx, ty, dx / h * 800, dy / h * 800, 800, []⟩],
        nextId := st.nextId + 1,
        lastTurretFireTime := now }
  else st

/-- Section 2 of update: the pre-spawn warning flag is set once when the
time to the scheduled spawn drops below half a second. -/
def warningCheck (st : SimState) : SimState :=
  let timeUntilSpawn := st.nextSpawnTime - st.levelTime
  if timeUntilSpawn < 1 / 2 ∧ 0 < timeUntilSpawn ∧ st.warningPlayed = false then
    { st with warningPlayed := true }
  else st

/-- Section 3 of update: when the level time has passed the scheduled
spawn time and at least one building is alive, a new enemy is spawned and
the next spawn is scheduled at levelTime + spawnInterval. -/
def spawnStep (cfg : Config) (st : SimState) : SimState :=
  if st.nextSpawnTime < st.levelTime then
    let active := st.buildings.filter (fun b => !b.isDestroyed)
    if active.length = 0 then st
    else
      let targetB := active.getD (Int.floor (cfg.rB * (active.length : ℚ))).toNat
        (Building.mk 0 0 0 0 0 false)
      let targetX := targetB.x + targetB.width / 2
      let targetY := cfg.height
      let startX0 := cfg.rSX * cfg.width
      let startY : ℚ := -30
      let baseSpeed : ℚ := 50 + (cfg.level : ℚ) * 10
      let ty := chooseEnemyType cfg.level cfg.difficulty cfg.r1 cfg.r2
      let startX := if ty = EnemyType.BOMB then targetX else startX0
      let dist := cfg.hypot (targetX - startX) (targetY - startY)
      let mh : ℤ := if ty = EnemyType.HEAVY then 3 else 1
      { st with
        enemies := st.enemies ++ [{
          id := st.nextId, type := ty, x := startX, y := startY,
          startX := startX, startY := startY,
          targetX := targetX, targetY := targetY,
          totalDistance := dist, traveledDistance := 0,
          speed := (baseSpeed + cfg.rJ * 40) *
            (typeSpeedMultiplier ty * difficultySpeedMod cfg.difficulty),
          color := typeColor ty, trail := [], health := mh, maxHealth := mh,
          hitByExplosionIds := [] }],
        nextId := st.nextId + 1,
        nextSpawnTime := st.levelTime + spawnInterval cfg.level cfg.difficulty cfg.rI,
        warningPlayed := false }
  else st

/-- Movement part of the enemy loop: advance the traveled distance, take
the linear interpolation between start and target, and add the
perpendicular sinusoidal offset for the Wobbly archetype. -/
def moveEnemy (cfg : Config) (dt : ℚ) (e : Enemy) : Enemy :=
  let traveled := e.traveledDistance + e.speed * dt
  let t := traveled / e.totalDistance
  let bound : ℕ :=
    if e.type = EnemyType.WOBBLY ∨ e.type = EnemyType.LASER then 40 else 25
  let trail := pushTrail e.trail ⟨e.x, e.y⟩ bound
  let cx := e.startX + (e.targetX - e.startX) * t
  let cy := e.startY + (e.targetY - e.startY) * t
  if e.type = EnemyType.WOBBLY then
    let dx := e.targetX - e.startX
    let dy := e.targetY - e.startY
    let h := cfg.hypot dx dy
    let wave := cfg.sinq (traveled * (3 / 100)) * 60
    { e with traveledDistance := traveled, trail := trail,
             x := cx + (-(dy / h)) * wave, y := cy + dx / h * wave }
  else
    { e with traveledDistance := traveled, trail := trail, x := cx, y := cy }

/-- The explosion-area collision loop for one enemy.  The source iterates
explosionsRef.current with a for...of loop while pushing spark and kill
explosions into the same array, and a JavaScript array iterator also
visits elements appended during the iteration; the loop is therefore
modelled by an index-based worklist over the growing explosions list.
Returns the updated enemy, the updated shared state and whether the
enemy was destroyed (the loop breaks at the kill). -/
def expLoop (d : Difficulty) (now : ℚ) (e : Enemy) (st : SimState) (i : ℕ) :
    Enemy × SimState × Bool :=
  if h : i < st.explosions.length then
    let exp := st.explosions.get ⟨i, h⟩
    if distLtB (e.x - exp.x) (e.y - exp.y) exp.currentRadius ∧
        exp.id ∉ e.hitByExplosionIds then
      let e1 : Enemy := { e with
        hitByExplosionIds := e.hitByExplosionIds ++ [exp.id],
        health := e.health - 1 }
      if e1.health ≤ 0 then
        let st1 := handleKill d now e1 st
        (e1, { st1 with
          explosions := st1.explosions ++ [⟨st1.nextId, e1.x, e1.y, 5, 30, 1⟩],
          nextId := st1.nextId + 1 }, true)
      else
        expLoop d now e1
          { st with
            explosions := st.explosions ++ [⟨st.nextId, e1.x, e1.y, 2, 10, 1⟩],
            nextId := st.nextId + 1 } (i + 1)
    else expLoop d now e st (i + 1)
  else (e, st, false)
termination_by e.health.toNat + st.explosions.length - i
decreasing_by
  · simp_all only [List.length_append, List.length_singleton, not_le]
    omega
  · omega

/-- Outcome of resolving one enemy after movement. -/
inductive EnemyStepResult where
  | keep (e : Enemy) (st : SimState)
  | drop (st : SimState)
  | over (st : SimState)

/-- The building span test of the ground-impact block: every surviving
building whose horizontal span contains the enemy x is destroyed (no
early break), each destruction bumping the lost counter, resetting the
combo multiplier and pushing an impact explosion. -/
def buildingImpactGo (cfg : Config) (e : Enemy) (r : ℚ) :
    List Building → SimState → List Building × Bool × SimState
  | [], st => ([], false, st)
  | b :: bs, st =>
    if b.isDestroyed = false ∧ b.x ≤ e.x ∧ e.x ≤ b.x + b.width then
      let st1 : SimState := { st with
        buildingsLostInLevel := st.buildingsLostInLevel + 1
        multiplier := 1
        explosions := st.explosions ++ [⟨st.nextId, e.x, cfg.height - 30, 1, r, 1⟩]
        nextId := st.nextId + 1 }
      let rest := buildingImpactGo cfg e r bs st1
      ({ b with isDestroyed := true } :: rest.1, true, rest.2.2)
    else
      let rest := buildingImpactGo cfg e r bs st
      (b :: rest.1, rest.2.1, rest.2.2)

/-- Wrapper assembling the state after the building span loop. -/
def buildingImpact (cfg : Config) (e : Enemy) (r : ℚ) (st : SimState) :
    SimState × Bool :=
  let f := buildingImpactGo cfg e r st.buildings st
  ({ f.2.2 with buildings := f.1 }, f.2.1)

/-- The ground and building impact block of the enemy loop for an enemy
that has reached the ground: destroy every surviving building whose span
contains the enemy x, push the impact (or smaller ground) explosion,
remove the enemy, and transition to game over when every building is
destroyed. -/
def groundImpact (cfg : Config) (e1 : Enemy) (st1 : SimState) : EnemyStepResult :=
  let impactRadius : ℚ :=
    if e1.type = EnemyType.BOMB ∨ e1.type = EnemyType.HEAVY then 90 else 40
  let b := buildingImpact cfg e1 impactRadius st1
  let st2 := b.1
  let st3 :=
    if b.2 then st2
    else { st2 with
      explosions := st2.explosions ++
        [⟨st2.nextId, e1.x, cfg.height - 20, 1, impactRadius - 20, 1⟩],
      nextId := st2.nextId + 1 }
  if st3.buildings.all (fun bl => bl.isDestroyed) then EnemyStepResult.over st3
  else EnemyStepResult.drop st3

/-- Collision resolution for one (already moved) enemy: shield
absorption, then the explosion-area loop, then the ground and building
impact with the synchronous game-over check. -/
def resolveEnemy (cfg : Config) (now : ℚ) (e : Enemy) (st : SimState) :
    EnemyStepResult :=
  if shieldAbsorbs cfg.upgrades st.shieldEnergy (e.x - cfg.width / 2)
      (e.y - (cfg.height - 20)) then
    let st1 := handleKill cfg.difficulty now e st
    EnemyStepResult.drop { st1 with
      shieldEnergy := shieldDrain st1.shieldEnergy,
      shieldHitTime := now,
      explosions := st1.explosions ++ [⟨st1.nextId, e.x, e.y, 5, 20, 1⟩],
      nextId := st1.nextId + 1 }
  else
    let r := expLoop cfg.difficulty now e st 0
    if r.2.2 then EnemyStepResult.drop r.2.1
    else
      let e1 := r.1
      let st1 := r.2.1
      if 1 ≤ e1.traveledDistance / e1.totalDistance ∨ cfg.height - 40 ≤ e1.y then
        groundImpact cfg e1 st1
      else EnemyStepResult.keep e1 st1

/-- Step 8 of update: the enemy array is iterated from its last index
downwards (the tail of the list is processed first); a game-over result
aborts the processing of the remaining (earlier) enemies, matching the
early return of update. -/
def enemyLoop (cfg : Config) (now dt : ℚ) :
    List Enemy → SimState → List Enemy × SimState × Bool
  | [], st => ([], st, false)
  | e :: es, st =>
    match enemyLoop cfg now dt es st with
    | (es1, st1, true) => (e :: es1, st1, true)
    | (es1, st1, false) =>
      match resolveEnemy cfg now (moveEnemy cfg dt e) st1 with
      | EnemyStepResult.keep e1 st2 => (e1 :: es1, st2, false)
      | EnemyStepResult.drop st2 => (es1, st2, false)
      | EnemyStepResult.over st2 => (es1, st2, true)

/-- Result of one invocation of update in the PLAYING state. -/
inductive TickResult where
  | next (st : SimState)
  | levelComplete (st : SimState) (buildingsLost enemiesDestroyed : ℕ)
  | gameOver (st : SimState) (finalScore : ℤ)
deriving DecidableEq

/-- Sections 2 to 7 of update, between the level timer and the enemy
loop: warning flag, spawn, auto-turret, projectile movement and hits,
interceptor movement and detonation, and explosion ageing. -/
def preEnemyState (cfg : Config) (now dt : ℚ) (st : SimState) : SimState :=
  let st1 := warningCheck st
  let st2 := spawnStep cfg st1
  let st3 := turretStep cfg now st2
  let st4 := projectilesStep cfg now dt st3
  let st5 := interceptorsStep cfg dt st4
  { st5 with explosions := st5.explosions.filterMap (updateExplosion dt) }

/-- The combo timeout check followed by the level-timer advance (the
state entering the level-complete test). -/
def comboAndTimerState (st0 : SimState) (time now dt : ℚ) : SimState :=
  let stA := { st0 with lastTime := time }
  let stB := { stA with multiplier := comboCheck stA.multiplier now stA.lastKillTime }
  { stB with levelTime := stB.levelTime + dt }

/-- Sections 2 to 8 of update: the phase chain followed by the enemy
loop; k is the score passed to onGameOver (the pre-tick score captured by
the stale displayScore closure). -/
def postTimer (cfg : Config) (now dt : ℚ) (k : ℤ) (stC : SimState) : TickResult :=
  let stD := preEnemyState cfg now dt stC
  let r := enemyLoop cfg now dt stD.enemies stD
  if r.2.2 then TickResult.gameOver { r.2.1 with enemies := r.1 } k
  else TickResult.next { r.2.1 with enemies := r.1 }

/-- One gameplay tick of update (the PLAYING path), assembled from the
named parts above: delta-time and stall guard, combo timeout check and
level timer (comboAndTimerState) with the level-complete early return,
then the phase chain and enemy loop (postTimer). -/
def update (cfg : Config) (st0 : SimState) (time now : ℚ) : TickResult :=
  let dt := (time - st0.lastTime) / 1000
  let stA := { st0 with lastTime := time }
  if 1 / 10 < dt then TickResult.next stA
  else
    let stC := comboAndTimerState st0 time now dt
    let timeLeft := max 0 (LEVEL_DURATION - stC.levelTime)
    if timeLeft ≤ 0 then
      TickResult.levelComplete stC stC.buildingsLostInLevel stC.enemiesDestroyed
    else postTimer cfg now dt st0.score stC

/-- The shield energy set by initLevel: shieldLevel * 100. -/
def initShieldEnergy (u : UpgradeStats) : ℚ := (u.shieldLevel : ℚ) * 100

/-- The canvas click handler: ignored outside PLAYING, ignored while the
fire cooldown since the last accepted shot has not elapsed, otherwise it
stamps the shot time and launches an interceptor from the bottom centre
toward the click point. -/
def handleCanvasClick (u : UpgradeStats) (phase : GameState) (cw ch : ℚ)
    (now clickX clickY : ℚ) (st : SimState) : SimState :=
  if phase ≠ GameState.PLAYING then st
  else if now - st.lastShotTime < fireCooldown u then st
  else
    { st with
      lastShotTime := now,
      interceptors := st.interceptors ++ [{
        id := st.nextId, x := cw / 2, y := ch - 20,
        startX := cw / 2, startY := ch - 20,
        targetX := clickX, targetY := clickY,
        speed := interceptorSpeed u, exploded := false, trail := [] }],
      nextId := st.nextId + 1 }

/-- The simulation state carried by a tick result. -/
def TickResult.state : TickResult → SimState
  | TickResult.next s => s
  | TickResult.levelComplete s _ _ => s
  | TickResult.gameOver s _ => s

/-- The simulation state carried by an enemy resolution outcome. -/
def EnemyStepResult.state : EnemyStepResult → SimState
  | EnemyStepResult.keep _ s => s
  | EnemyStepResult.drop s => s
  | EnemyStepResult.over s => s

/-- Every building of the list is destroyed. -/
def allDestroyed (bs : List Building) : Prop := ∀ b ∈ bs, b.isDestroyed = true

/-- The combo multiplier invariant of the spec: multiplier in [1, 10]. -/
def multInv (s : SimState) : Prop := 1 ≤ s.multiplier ∧ s.multiplier ≤ 10

/-- Pointwise relation between building lists across (part of) a tick:
the same buildings in the same order (by identity and footprint), with
destruction monotone (a destroyed building never reverts to alive). -/
def BuildingsRel (xs ys : List Building) : Prop :=
  List.Forall₂ (fun b b1 => b.id = b1.id ∧ b.x = b1.x ∧ b.width = b1.width ∧
    (b.isDestroyed = true → b1.isDestroyed = true)) xs ys

/-- Relation between the pre- and post-states of any part of a tick:
shield energy never increases and stays nonnegative, the combo
multiplier invariant is preserved, and buildings evolve monotonically. -/
def TickRel (a b : SimState) : Prop :=
  b.shieldEnergy ≤ a.shieldEnergy ∧
  (0 ≤ a.shieldEnergy → 0 ≤ b.shieldEnergy) ∧
  (multInv a → multInv b) ∧
  BuildingsRel a.buildings b.buildings

/-- Sample upgrade levels used to instantiate theorems on concrete
inputs. -/
def sampleUpgrades : UpgradeStats :=
  { speedLevel := 0, radiusLevel := 0, rateLevel := 0,
    turretLevel := 0, shieldLevel := 1, targetingLevel := 0 }

/-- Sample tick configuration used to instantiate theorems on concrete
inputs. -/
def sampleCfg : Config :=
  { width := 800, height := 600, level := 1, difficulty := Difficulty.MEDIUM,
    upgrades := sampleUpgrades, hypot := fun _ _ => 0, sinq := fun _ => 0,
    rB := 0, rSX := 0, r1 := 0, r2 := 0, rJ := 0, rI := 0 }

/-- Sample simulation state used to instantiate theorems on concrete
inputs. -/
def sampleState : SimState :=
  { buildings := [⟨0, 100, 550, 60, 40, false⟩],
    enemies := [], interceptors := [], projectiles := [], explosions := [],
    shieldEnergy := 100, shieldHitTime := 0, lastTurretFireTime := 0,
    multiplier := 1, lastKillTime := 0, lastTime := 0, levelTime := 0,
    nextSpawnTime := 5, lastShotTime := 0, score := 0,
    buildingsLostInLevel := 0, enemiesDestroyed := 0, warningPlayed := false,
    nextId := 50 }

/-- A Heavy enemy (maxHealth 3) used to instantiate theorems on concrete
inputs. -/
def heavyEnemy : Enemy :=
  { id := 1, type := EnemyType.HEAVY, x := 0, y := 3, startX := 0, startY := -30,
    targetX := 0, targetY := 600, totalDistance := 630, traveledDistance := 33,
    speed := 30, color := "#c2410c", trail := [], health := 3, maxHealth := 3,
    hitByExplosionIds := [] }

/-- A state holding one live explosion overlapping heavyEnemy. -/
def blastState : SimState :=
  { sampleState with explosions := [⟨7, 0, 0, 10, 30, 1⟩] }

/-- A Standard enemy sitting at the shield centre, used to instantiate
the shield absorption theorem. -/
def shieldEnemy : Enemy :=
  { id := 2, type := EnemyType.STANDARD, x := 400, y := 580, startX := 400,
    startY := -30, targetX := 400, targetY := 600, totalDistance := 610,
    traveledDistance := 200, speed := 60, color := "#ef4444", trail := [],
    health := 1, maxHealth := 1, hitByExplosionIds := [] }

/-- Relation between the pre- and post-states of the non-enemy phases of
a tick: buildings, shield energy and shield hit time are untouched and
the combo multiplier invariant is preserved. -/
def PhasePres (a b : SimState) : Prop :=
  b.buildings = a.buildings ∧ b.shieldEnergy = a.shieldEnergy ∧
  b.shieldHitTime = a.shieldHitTime ∧ (multInv a → multInv b)

/-- A state holding one explosion already in its fade phase
(currentRadius past maxRadius) overlapping shieldEnemy. -/
def fadeState : SimState :=
  { sampleState with explosions := [⟨9, 400, 580, 70, 60, 1 / 2⟩] }

/-- heavyEnemy with the blast identity of blastState already recorded in
its hit set. -/
def hitEnemy : Enemy := { heavyEnemy with hitByExplosionIds := [7] }

theorem buildingsRel_refl (xs : List Building) : BuildingsRel xs xs := by
  induction xs with
  | nil => exact List.Forall₂.nil
  | cons b bs ih => exact List.Forall₂.cons ⟨rfl, rfl, rfl, id⟩ ih

theorem buildingsRel_trans {xs ys zs : List Building}
    (h1 : BuildingsRel xs ys) (h2 : BuildingsRel ys zs) : BuildingsRel xs zs := by
  induction h1 generalizing zs with
  | nil => cases h2; exact List.Forall₂.nil
  | cons hab htail ih =>
    cases h2 with
    | cons hbc htail2 =>
      exact List.Forall₂.cons ⟨hab.1.trans hbc.1, hab.2.1.trans hbc.2.1,
        hab.2.2.1.trans hbc.2.2.1, fun hd => hbc.2.2.2 (hab.2.2.2 hd)⟩ (ih htail2)

theorem tickRel_refl (a : SimState) : TickRel a a :=
  ⟨le_refl _, id, id, buildingsRel_refl _⟩

theorem tickRel_trans {a b c : SimState} (h1 : TickRel a b) (h2 : TickRel b c) :
    TickRel a c :=
  ⟨h2.1.trans h1.1, fun h => h2.2.1 (h1.2.1 h), fun h => h2.2.2.1 (h1.2.2.1 h),
    buildingsRel_trans h1.2.2.2 h2.2.2.2⟩

theorem phasePres_refl (a : SimState) : PhasePres a a := ⟨rfl, rfl, rfl, id⟩

theorem phasePres_trans {a b c : SimState} (h1 : PhasePres a b) (h2 : PhasePres b c) :
    PhasePres a c :=
  ⟨h2.1.trans h1.1, h2.2.1.trans h1.2.1, h2.2.2.1.trans h1.2.2.1,
    fun h => h2.2.2.2 (h1.2.2.2 h)⟩

theorem phasePres_tickRel {a b : SimState} (h : PhasePres a b) : TickRel a b := by
  refine ⟨le_of_eq h.2.1, fun h0 => ?_, h.2.2.2, ?_⟩
  · rw [h.2.1]; exact h0
  · rw [h.1]; exact buildingsRel_refl _

theorem killComboUpdate_bounds (m : ℕ) (now lk : ℚ) :
    1 ≤ killComboUpdate m now lk ∧ killComboUpdate m now lk ≤ 10 := by
  rw [killComboUpdate]; split_ifs <;> omega

theorem comboCheck_cases (m : ℕ) (now lk : ℚ) :
    comboCheck m now lk = 1 ∨ comboCheck m now lk = m := by
  rw [comboCheck]; split_ifs <;> simp

theorem handleKill_pres (d : Difficulty) (now : ℚ) (e : Enemy) (st : SimState) :
    PhasePres st (handleKill d now e st) := by
  refine ⟨rfl, rfl, rfl, fun _ => ?_⟩
  simp only [handleKill, multInv]
  exact killComboUpdate_bounds _ _ _

theorem warningCheck_pres (st : SimState) : PhasePres st (warningCheck st) := by
  rw [warningCheck]
  split_ifs
  · exact ⟨rfl, rfl, rfl, id⟩
  · exact phasePres_refl _

theorem spawnStep_pres (cfg : Config) (st : SimState) :
    PhasePres st (spawnStep cfg st) := by
  simp only [spawnStep]
  split_ifs <;> exact ⟨rfl, rfl, rfl, id⟩

theorem turretStep_pres (cfg : Config) (now : ℚ) (st : SimState) :
    PhasePres st (turretStep cfg now st) := by
  simp only [turretStep]
  split_ifs
  · split
    · exact phasePres_refl _
    · exact ⟨rfl, rfl, rfl, id⟩
  · exact phasePres_refl _

theorem projStep_pres (cfg : Config) (now dt : ℚ) (p : Projectile) (st : SimState) :
    PhasePres st (projStep cfg now dt p st).2 := by
  rw [projStep]
  split_ifs
  · exact phasePres_refl _
  · split
    · exact ⟨rfl, rfl, rfl, id⟩
    · exact ⟨rfl, rfl, rfl, id⟩
    · exact phasePres_trans (⟨rfl, rfl, rfl, id⟩ :
        PhasePres st _) (handleKill_pres _ _ _ _)

theorem projLoop_pres (cfg : Config) (now dt : ℚ) :
    ∀ (ps : List Projectile) (st : SimState), PhasePres st (projLoop cfg now dt ps st).2 := by
  intro ps
  induction ps with
  | nil => intro st; exact phasePres_refl _
  | cons p ps ih =>
    intro st
    have h2 := projStep_pres cfg now dt p (projLoop cfg now dt ps st).2
    rcases hps : projStep cfg now dt p (projLoop cfg now dt ps st).2 with ⟨op, st2⟩
    rw [hps] at h2
    cases op <;> simp only [projLoop, hps] <;> exact phasePres_trans (ih st) h2

theorem projectilesStep_pres (cfg : Config) (now dt : ℚ) (st : SimState) :
    PhasePres st (projectilesStep cfg now dt st) := by
  have h := projLoop_pres cfg now dt st.projectiles st
  exact phasePres_trans h ⟨rfl, rfl, rfl, id⟩

theorem interStep_pres (cfg : Config) (dt : ℚ) (m : Interceptor) (st : SimState) :
    PhasePres st (interStep cfg dt m st).2 := by
  rw [interStep]
  split_ifs
  · exact ⟨rfl, rfl, rfl, id⟩
  · exact phasePres_refl _

theorem interLoop_pres (cfg : Config) (dt : ℚ) :
    ∀ (ms : List Interceptor) (st : SimState), PhasePres st (interLoop cfg dt ms st).2 := by
  intro ms
  induction ms with
  | nil => intro st; exact phasePres_refl _
  | cons m ms ih =>
    intro st
    have h2 := interStep_pres cfg dt m (interLoop cfg dt ms st).2
    rcases hps : interStep cfg dt m (interLoop cfg dt ms st).2 with ⟨op, st2⟩
    rw [hps] at h2
    cases op <;> simp only [interLoop, hps] <;> exact phasePres_trans (ih st) h2

theorem interceptorsStep_pres (cfg : Config) (dt : ℚ) (st : SimState) :
    PhasePres st (interceptorsStep cfg dt st) := by
  have h := interLoop_pres cfg dt st.interceptors st
  exact phasePres_trans h ⟨rfl, rfl, rfl, id⟩

theorem expLoop_pres (d : Difficulty) (now : ℚ) (e : Enemy) (st : SimState) (i : ℕ) :
    PhasePres st (expLoop d now e st i).2.1 := by
  induction e, st, i using expLoop.induct with
  | d => exact d
  | now => exact now
  | case1 e st i h exp hg e1 hk =>
    rw [expLoop]
    simp only [dif_pos h, if_pos hg, if_pos hk]
    exact phasePres_trans (handleKill_pres d now e1 st) ⟨rfl, rfl, rfl, id⟩
  | case2 e st i h exp hg e1 hk ih =>
    rw [expLoop]
    simp only [dif_pos h, if_pos hg, if_neg hk]
    exact phasePres_trans (⟨rfl, rfl, rfl, id⟩ : PhasePres st _) ih
  | case3 e st i h exp hg ih =>
    rw [expLoop]
    simp only [dif_pos h, if_neg hg]
    exact ih
  | case4 e st i h =>
    rw [expLoop]
    simp only [dif_neg h]
    exact phasePres_refl _

theorem expLoop_ids_growth (d : Difficulty) (now : ℚ) (e : Enemy) (st : SimState) (i : ℕ) :
    e.hitByExplosionIds.Nodup →
    ∃ new : List ℕ,
      (expLoop d now e st i).1.hitByExplosionIds = e.hitByExplosionIds ++ new ∧
      (e.hitByExplosionIds ++ new).Nodup ∧
      (expLoop d now e st i).1.health = e.health - new.length := by
  induction e, st, i using expLoop.induct with
  | d => exact d
  | now => exact now
  | case1 e st i h exp hg e1 hk =>
    intro hnd
    rw [expLoop]
    simp only [dif_pos h, if_pos hg, if_pos hk]
    refine ⟨[exp.id], rfl, ?_, by simp⟩
    simp only [List.nodup_append, List.nodup_singleton, List.disjoint_singleton]
    exact ⟨hnd, trivial, hg.2⟩
  | case2 e st i h exp hg e1 hk ih =>
    intro hnd
    rw [expLoop]
    simp only [dif_pos h, if_pos hg, if_neg hk]
    have hnd1 : e1.hitByExplosionIds.Nodup := by
      simp only [e1, List.nodup_append, List.nodup_singleton, List.disjoint_singleton]
      exact ⟨hnd, trivial, hg.2⟩
    obtain ⟨new1, h1, h2, h3⟩ := ih hnd1
    refine ⟨exp.id :: new1, ?_, ?_, ?_⟩
    · rw [h1]; simp [e1]
    · have : e.hitByExplosionIds ++ exp.id :: new1 =
          e1.hitByExplosionIds ++ new1 := by simp [e1]
      rw [this]; exact h2
    · rw [h3]; simp only [e1, List.length_cons]
      push_cast
      ring
  | case3 e st i h exp hg ih =>
    intro hnd
    rw [expLoop]
    simp only [dif_pos h, if_neg hg]
    exact ih hnd
  | case4 e st i h =>
    intro hnd
    rw [expLoop]
    simp only [dif_neg h]
    exact ⟨[], by simp, by simpa using hnd, by simp⟩

theorem expLoop_all_recorded (d : Difficulty) (now : ℚ) (e : Enemy) (st : SimState) (i : ℕ) :
    (∀ x ∈ st.explosions, x.id ∈ e.hitByExplosionIds) →
    expLoop d now e st i = (e, st, false) := by
  induction e, st, i using expLoop.induct with
  | d => exact d
  | now => exact now
  | case1 e st i h exp hg e1 hk =>
    intro hall
    exact absurd (hall _ (st.explosions.get_mem i h)) hg.2
  | case2 e st i h exp hg e1 hk ih =>
    intro hall
    exact absurd (hall _ (st.explosions.get_mem i h)) hg.2
  | case3 e st i h exp hg ih =>
    intro hall
    rw [expLoop]
    simp only [dif_pos h, if_neg hg]
    exact ih hall
  | case4 e st i h =>
    intro hall
    rw [expLoop]
    simp only [dif_neg h]

theorem shieldDrain_nonneg (x : ℚ) : 0 ≤ shieldDrain x := by
  rw [shieldDrain]; split_ifs <;> linarith

theorem shieldDrain_le {x : ℚ} (h : 0 ≤ x) : shieldDrain x ≤ x := by
  rw [shieldDrain]; split_ifs <;> linarith

theorem buildingImpactGo_spec (cfg : Config) (e : Enemy) (r : ℚ) :
    ∀ (bs : List Building) (st : SimState),
      BuildingsRel bs (buildingImpactGo cfg e r bs st).1 ∧
      (buildingImpactGo cfg e r bs st).2.2.buildings = st.buildings ∧
      (buildingImpactGo cfg e r bs st).2.2.shieldEnergy = st.shieldEnergy ∧
      (buildingImpactGo cfg e r bs st).2.2.shieldHitTime = st.shieldHitTime ∧
      ((buildingImpactGo cfg e r bs st).2.2.multiplier = st.multiplier ∨
        (buildingImpactGo cfg e r bs st).2.2.multiplier = 1) ∧
      ((buildingImpactGo cfg e r bs st).2.1 = false →
        buildingImpactGo cfg e r bs st = (bs, false, st)) := by
  intro bs
  induction bs with
  | nil =>
    intro st
    exact ⟨List.Forall₂.nil, rfl, rfl, rfl, Or.inl rfl, fun _ => rfl⟩
  | cons b bs ih =>
    intro st
    rw [buildingImpactGo]
    split_ifs with hb
    · obtain ⟨r1, r2, r3, r4, r5, r6⟩ := ih { st with
        buildingsLostInLevel := st.buildingsLostInLevel + 1
        multiplier := 1
        explosions := st.explosions ++ [⟨st.nextId, e.x, cfg.height - 30, 1, r, 1⟩]
        nextId := st.nextId + 1 }
      refine ⟨List.Forall₂.cons ⟨rfl, rfl, rfl, fun _ => rfl⟩ r1, r2, r3, r4,
        Or.inr (r5.elim id id), ?_⟩
      intro h
      simp at h
    · obtain ⟨r1, r2, r3, r4, r5, r6⟩ := ih st
      refine ⟨List.Forall₂.cons ⟨rfl, rfl, rfl, id⟩ r1, r2, r3, r4, r5, ?_⟩
      intro h
      rw [r6 h]

theorem groundImpact_spec (cfg : Config) (e1 : Enemy) (st1 : SimState) :
    (match groundImpact cfg e1 st1 with
     | EnemyStepResult.over st3 => TickRel st1 st3 ∧ allDestroyed st3.buildings
     | EnemyStepResult.drop st3 => TickRel st1 st3 ∧ ¬ allDestroyed st3.buildings
     | EnemyStepResult.keep _ _ => False) := by
  have htr : ∀ rad : ℚ, TickRel st1
      { (buildingImpactGo cfg e1 rad st1.buildings st1).2.2 with
        buildings := (buildingImpactGo cfg e1 rad st1.buildings st1).1 } := by
    intro rad
    obtain ⟨b1, b2, b3, b4, b5, b6⟩ := buildingImpactGo_spec cfg e1 rad st1.buildings st1
    refine ⟨le_of_eq b3, fun h0 => ?_, fun hm => ?_, b1⟩
    · rw [b3]; exact h0
    · rcases b5 with h | h
      · exact ⟨by rw [h]; exact hm.1, by rw [h]; exact hm.2⟩
      · exact ⟨by rw [h], by rw [h]; norm_num⟩
  rw [groundImpact, buildingImpact]
  generalize (if e1.type = EnemyType.BOMB ∨ e1.type = EnemyType.HEAVY
    then (90 : ℚ) else 40) = rad
  split_ifs with hfb hall hall
  · exact ⟨htr rad, by simpa [allDestroyed] using hall⟩
  · exact ⟨htr rad, by simpa [allDestroyed] using hall⟩
  · refine ⟨tickRel_trans (htr rad) ⟨le_refl _, id, id, buildingsRel_refl _⟩, ?_⟩
    simpa [allDestroyed] using hall
  · refine ⟨tickRel_trans (htr rad) ⟨le_refl _, id, id, buildingsRel_refl _⟩, ?_⟩
    simpa [allDestroyed] using hall

theorem resolveEnemy_spec (cfg : Config) (now : ℚ) (e : Enemy) (st : SimState) :
    (match resolveEnemy cfg now e st with
     | EnemyStepResult.keep _ st1 =>
         st1.buildings = st.buildings ∧ st1.shieldEnergy = st.shieldEnergy ∧
         st1.shieldHitTime = st.shieldHitTime ∧ (multInv st → multInv st1)
     | EnemyStepResult.drop st1 =>
         TickRel st st1 ∧ (st1.buildings = st.buildings ∨ ¬ allDestroyed st1.buildings)
     | EnemyStepResult.over st1 =>
         TickRel st st1 ∧ allDestroyed st1.buildings) := by
  have epres := expLoop_pres cfg.difficulty now e st 0
  rw [resolveEnemy]
  split_ifs with hs
  · have h0 : (0 : ℚ) < st.shieldEnergy := by
      simp only [shieldAbsorbs, Bool.and_eq_true, decide_eq_true_eq] at hs
      exact hs.1.2
    refine ⟨⟨shieldDrain_le (le_of_lt h0), fun _ => shieldDrain_nonneg _,
      fun _ => ?_, buildingsRel_refl _⟩, Or.inl rfl⟩
    simp only [multInv, handleKill]
    exact killComboUpdate_bounds _ _ _
  · rcases hE : expLoop cfg.difficulty now e st 0 with ⟨e1, st1, flag⟩
    rw [hE] at epres
    simp only [hE]
    cases flag with
    | true =>
      simp only [if_true]
      exact ⟨phasePres_tickRel epres, Or.inl epres.1⟩
    | false =>
      simp only [Bool.false_eq_true, if_false]
      split_ifs with hg
      · have gs := groundImpact_spec cfg e1 st1
        rcases hG : groundImpact cfg e1 st1 with _ | st2 | st2
        · rw [hG] at gs
          exact gs.elim
        · rw [hG] at gs
          exact ⟨tickRel_trans (phasePres_tickRel epres) gs.1, Or.inr gs.2⟩
        · rw [hG] at gs
          exact ⟨tickRel_trans (phasePres_tickRel epres) gs.1, gs.2⟩
      · exact ⟨epres.1, epres.2.1, epres.2.2.1, epres.2.2.2⟩

theorem preEnemyState_pres (cfg : Config) (now dt : ℚ) (st : SimState) :
    PhasePres st (preEnemyState cfg now dt st) := by
  refine phasePres_trans (warningCheck_pres st) ?_
  refine phasePres_trans (spawnStep_pres cfg _) ?_
  refine phasePres_trans (turretStep_pres cfg now _) ?_
  refine phasePres_trans (projectilesStep_pres cfg now dt _) ?_
  refine phasePres_trans (interceptorsStep_pres cfg dt _) ?_
  exact ⟨rfl, rfl, rfl, id⟩

theorem enemyLoop_spec (cfg : Config) (now dt : ℚ) :
    ∀ (es : List Enemy) (st : SimState),
      TickRel st (enemyLoop cfg now dt es st).2.1 ∧
      ((enemyLoop cfg now dt es st).2.2 = true →
        allDestroyed (enemyLoop cfg now dt es st).2.1.buildings) ∧
      ((enemyLoop cfg now dt es st).2.2 = false →
        allDestroyed (enemyLoop cfg now dt es st).2.1.buildings →
        allDestroyed st.buildings) := by
  intro es
  induction es with
  | nil =>
    intro st
    refine ⟨tickRel_refl st, ?_, ?_⟩
    · intro h; simp [enemyLoop] at h
    · intro _ h; simpa [enemyLoop] using h
  | cons e es ih =>
    intro st
    obtain ⟨ih1, ih2, ih3⟩ := ih st
    rw [enemyLoop]
    rcases hT : enemyLoop cfg now dt es st with ⟨es1, st1, flag⟩
    rw [hT] at ih1 ih2 ih3
    cases flag with
    | true =>
      refine ⟨ih1, fun _ => ih2 rfl, fun h => ?_⟩
      simp at h
    | false =>
      have rs := resolveEnemy_spec cfg now (moveEnemy cfg dt e) st1
      rcases hR : resolveEnemy cfg now (moveEnemy cfg dt e) st1 with ⟨e2, st2⟩ | st2 | st2 <;>
        rw [hR] at rs <;> simp only [hR]
      · have tr12 : TickRel st1 st2 := by
          refine ⟨le_of_eq rs.2.1, fun h => ?_, rs.2.2.2, ?_⟩
          · rw [rs.2.1]; exact h
          · rw [rs.1]; exact buildingsRel_refl _
        refine ⟨tickRel_trans ih1 tr12, fun h => ?_, fun _ hAll => ?_⟩
        · simp at h
        · rw [rs.1] at hAll
          exact ih3 rfl hAll
      · refine ⟨tickRel_trans ih1 rs.1, fun h => ?_, fun _ hAll => ?_⟩
        · simp at h
        · rcases rs.2 with heq | hnall
          · rw [heq] at hAll
            exact ih3 rfl hAll
          · exact absurd hAll hnall
      · exact ⟨tickRel_trans ih1 rs.1, fun _ => rs.2, fun h => by simp at h⟩

theorem comboCheck_multInv {m : ℕ} (now lk : ℚ) (hm : 1 ≤ m ∧ m ≤ 10) :
    1 ≤ comboCheck m now lk ∧ comboCheck m now lk ≤ 10 := by
  rcases comboCheck_cases m now lk with h | h <;> rw [h]
  · exact ⟨le_refl 1, by norm_num⟩
  · exact hm

theorem comboAndTimerState_pres (st0 : SimState) (time now dt : ℚ) :
    PhasePres st0 (comboAndTimerState st0 time now dt) := by
  refine ⟨rfl, rfl, rfl, fun hm => ?_⟩
  exact comboCheck_multInv now st0.lastKillTime hm

theorem postTimer_spec (cfg : Config) (now dt : ℚ) (k : ℤ) (stC : SimState) :
    (match postTimer cfg now dt k stC with
     | TickResult.next s =>
         TickRel stC s ∧ (allDestroyed s.buildings → allDestroyed stC.buildings)
     | TickResult.levelComplete _ _ _ => False
     | TickResult.gameOver s k2 =>
         TickRel stC s ∧ allDestroyed s.buildings ∧ k2 = k) := by
  have hpre := preEnemyState_pres cfg now dt stC
  obtain ⟨el1, el2, el3⟩ := enemyLoop_spec cfg now dt
    (preEnemyState cfg now dt stC).enemies (preEnemyState cfg now dt stC)
  rw [postTimer]
  rcases hL : enemyLoop cfg now dt (preEnemyState cfg now dt stC).enemies
    (preEnemyState cfg now dt stC) with ⟨es1, st1, flag⟩
  rw [hL] at el1 el2 el3
  cases flag with
  | true =>
    simp only [if_true]
    refine ⟨?_, el2 rfl, by first | rfl | trivial⟩
    exact tickRel_trans (phasePres_tickRel hpre)
      (tickRel_trans el1 ⟨le_refl _, id, id, buildingsRel_refl _⟩)
  | false =>
    simp only [Bool.false_eq_true, if_false]
    refine ⟨?_, fun h => ?_⟩
    · exact tickRel_trans (phasePres_tickRel hpre)
        (tickRel_trans el1 ⟨le_refl _, id, id, buildingsRel_refl _⟩)
    · have h1 : allDestroyed st1.buildings := h
      have h2 := el3 rfl h1
      rw [hpre.1] at h2
      exact h2

theorem update_spec (cfg : Config) (st0 : SimState) (time now : ℚ) :
    (match update cfg st0 time now with
     | TickResult.next s =>
         TickRel st0 s ∧ (allDestroyed s.buildings → allDestroyed st0.buildings)
     | TickResult.levelComplete s _ _ => TickRel st0 s ∧ s.buildings = st0.buildings
     | TickResult.gameOver s k =>
         TickRel st0 s ∧ allDestroyed s.buildings ∧ k = st0.score) := by
  have hct := comboAndTimerState_pres st0 time now ((time - st0.lastTime) / 1000)
  simp only [update]
  split_ifs with hdt htl
  · exact ⟨phasePres_tickRel ⟨rfl, rfl, rfl, id⟩, fun h => h⟩
  · exact ⟨phasePres_tickRel hct, hct.1⟩
  · have hps := postTimer_spec cfg now ((time - st0.lastTime) / 1000) st0.score
      (comboAndTimerState st0 time now ((time - st0.lastTime) / 1000))
    rcases hP : postTimer cfg now ((time - st0.lastTime) / 1000) st0.score
      (comboAndTimerState st0 time now ((time - st0.lastTime) / 1000)) with
      s | ⟨s, bl, ed⟩ | ⟨s, k⟩ <;> rw [hP] at hps
    · refine ⟨tickRel_trans (phasePres_tickRel hct) hps.1, fun h => ?_⟩
      have h2 := hps.2 h
      rw [hct.1] at h2
      exact h2
    · exact hps.elim
    · refine ⟨tickRel_trans (phasePres_tickRel hct) hps.1, hps.2.1, hps.2.2⟩

theorem update_tickRel (cfg : Config) (st0 : SimState) (time now : ℚ) :
    TickRel st0 (update cfg st0 time now).state := by
  have h := update_spec cfg st0 time now
  rcases hU : update cfg st0 time now with s | ⟨s, bl, ed⟩ | ⟨s, k⟩ <;>
    rw [hU] at h <;> simp only [TickResult.state] <;> exact h.1

theorem buildingImpactGo_hit_mult (cfg : Config) (e : Enemy) (r : ℚ) :
    ∀ (bs : List Building) (st : SimState),
      (buildingImpactGo cfg e r bs st).2.1 = true →
      (buildingImpactGo cfg e r bs st).2.2.multiplier = 1 := by
  intro bs
  induction bs with
  | nil =>
    intro st h
    simp [buildingImpactGo] at h
  | cons b bs ih =>
    intro st
    rw [buildingImpactGo]
    split_ifs with hb
    · intro _
      obtain ⟨_, _, _, _, r5, _⟩ := buildingImpactGo_spec cfg e r bs { st with
        buildingsLostInLevel := st.buildingsLostInLevel + 1
        multiplier := 1
        explosions := st.explosions ++ [⟨st.nextId, e.x, cfg.height - 30, 1, r, 1⟩]
        nextId := st.nextId + 1 }
      exact r5.elim id id
    · intro h
      exact ih st h

theorem groundImpact_energy (cfg : Config) (e1 : Enemy) (st1 : SimState) :
    (groundImpact cfg e1 st1).state.shieldEnergy = st1.shieldEnergy ∧
    (groundImpact cfg e1 st1).state.shieldHitTime = st1.shieldHitTime := by
  have hsp : ∀ rad : ℚ,
      (buildingImpactGo cfg e1 rad st1.buildings st1).2.2.shieldEnergy = st1.shieldEnergy ∧
      (buildingImpactGo cfg e1 rad st1.buildings st1).2.2.shieldHitTime = st1.shieldHitTime := by
    intro rad
    obtain ⟨_, _, b3, b4, _, _⟩ := buildingImpactGo_spec cfg e1 rad st1.buildings st1
    exact ⟨b3, b4⟩
  rw [groundImpact, buildingImpact]
  generalize (if e1.type = EnemyType.BOMB ∨ e1.type = EnemyType.HEAVY
    then (90 : ℚ) else 40) = rad
  split_ifs <;> simp only [EnemyStepResult.state] <;> exact hsp rad

theorem resolveEnemy_no_absorb_energy (cfg : Config) (now : ℚ) (e : Enemy) (st : SimState)
    (hs : shieldAbsorbs cfg.upgrades st.shieldEnergy (e.x - cfg.width / 2)
      (e.y - (cfg.height - 20)) = false) :
    (resolveEnemy cfg now e st).state.shieldEnergy = st.shieldEnergy ∧
    (resolveEnemy cfg now e st).state.shieldHitTime = st.shieldHitTime := by
  have epres := expLoop_pres cfg.difficulty now e st 0
  rw [resolveEnemy]
  split_ifs with h
  · rw [hs] at h
    exact absurd h (by simp)
  · rcases hE : expLoop cfg.difficulty now e st 0 with ⟨e1, st1, flag⟩
    rw [hE] at epres
    cases flag with
    | true =>
      simp only [if_true, EnemyStepResult.state]
      exact ⟨epres.2.1, epres.2.2.1⟩
    | false =>
      simp only [Bool.false_eq_true, if_false]
      split_ifs with hg
      · have hge := groundImpact_energy cfg e1 st1
        exact ⟨hge.1.trans epres.2.1, hge.2.trans epres.2.2.1⟩
      · simp only [EnemyStepResult.state]
        exact ⟨epres.2.1, epres.2.2.1⟩

/-- C1: in the explosion-area check, every live enemy takes at most one
point of damage per explosion identity: the loop records each newly
overlapping identity in the per-enemy hit set (which stays duplicate
free), the health loss equals exactly the number of newly recorded
identities (one point per identity), and once every overlapping identity
is already recorded (any later tick with the same blast) the loop changes
nothing, so a Heavy enemy is never damaged twice, nor killed twice, by
the same explosion identity. -/
theorem explosion_damages_enemy_at_most_once_per_identity
    (d : Difficulty) (now : ℚ) (e : Enemy) (st : SimState) (i : ℕ)
    (hnd : e.hitByExplosionIds.Nodup) :
    (∃ new : List ℕ,
      (expLoop d now e st i).1.hitByExplosionIds = e.hitByExplosionIds ++ new ∧
      (e.hitByExplosionIds ++ new).Nodup ∧
      (expLoop d now e st i).1.health = e.health - new.length) ∧
    ((∀ x ∈ st.explosions, x.id ∈ e.hitByExplosionIds) →
      expLoop d now e st i = (e, st, false)) :=
  ⟨expLoop_ids_growth d now e st i hnd, expLoop_all_recorded d now e st i⟩

/-- Witness for C1: a Heavy enemy that already carries the blast identity
of the overlapping explosion is left completely unchanged by a second
pass of the explosion-area check. -/
theorem explosion_damages_enemy_at_most_once_per_identity_witness :
    expLoop Difficulty.MEDIUM 0 hitEnemy blastState 0 = (hitEnemy, blastState, false) :=
  (explosion_damages_enemy_at_most_once_per_identity Difficulty.MEDIUM 0 hitEnemy
    blastState 0 (by decide)).2 (by decide)

/-- C2 counterexample: an explosion whose radius has exactly reached
maxRadius (60) still grows to 61 on the next tick while its alpha fades,
so currentRadius is not frozen at maxRadius during the fade phase. -/
theorem explosion_radius_not_frozen_counterexample :
    updateExplosion (1 / 100) ⟨0, 0, 0, 60, 60, 1⟩ = some ⟨0, 0, 0, 61, 60, 49 / 50⟩ ∧
    (61 : ℚ) ≠ 60 := by
  constructor
  · norm_num [updateExplosion]
  · norm_num

/-- C2 amended: currentRadius grows by the constant rate 100 px/s on
every tick, without a cap; once it is above maxRadius, alpha decreases at
the constant rate 2/s and the explosion is removed exactly when alpha
drops to or below zero; both phases participate in the area-collision
check, which uses the actual (still growing) currentRadius, as shown by
a fading explosion (currentRadius 70 past maxRadius 60) still damaging
and killing an overlapping enemy. -/
theorem explosion_aging_amended (dt : ℚ) (e : Explosion) :
    (match updateExplosion dt e with
     | some e1 =>
         e1.currentRadius = e.currentRadius + 100 * dt ∧
         e1.maxRadius = e.maxRadius ∧
         e1.alpha = (if e.maxRadius < e.currentRadius + 100 * dt
           then e.alpha - 2 * dt else e.alpha) ∧
         ¬ (e.maxRadius < e.currentRadius + 100 * dt ∧ e.alpha - 2 * dt ≤ 0)
     | none => e.maxRadius < e.currentRadius + 100 * dt ∧ e.alpha - 2 * dt ≤ 0) ∧
    (expLoop Difficulty.MEDIUM 0 shieldEnemy fadeState 0).2.2 = true ∧
    (expLoop Difficulty.MEDIUM 0 shieldEnemy fadeState 0).1.hitByExplosionIds = [9] := by
  refine ⟨?_, ?_⟩
  · simp only [updateExplosion]
    split_ifs with h1 h2 <;> simp_all
  · rw [expLoop]
    norm_num [fadeState, sampleState, shieldEnemy, distLtB]

/-- Witness for C2: the amended statement instantiated at a concrete
fading explosion. -/
theorem explosion_aging_amended_witness :
    (match updateExplosion (1 / 100) ⟨0, 0, 0, 60, 60, 1⟩ with
     | some e1 =>
         e1.currentRadius = (60 : ℚ) + 100 * (1 / 100) ∧
         e1.maxRadius = (60 : ℚ) ∧
         e1.alpha = (if (60 : ℚ) < 60 + 100 * (1 / 100)
           then (1 : ℚ) - 2 * (1 / 100) else 1) ∧
         ¬ ((60 : ℚ) < 60 + 100 * (1 / 100) ∧ (1 : ℚ) - 2 * (1 / 100) ≤ 0)
     | none => (60 : ℚ) < 60 + 100 * (1 / 100) ∧ (1 : ℚ) - 2 * (1 / 100) ≤ 0) ∧
    (expLoop Difficulty.MEDIUM 0 shieldEnemy fadeState 0).2.2 = true ∧
    (expLoop Difficulty.MEDIUM 0 shieldEnemy fadeState 0).1.hitByExplosionIds = [9] :=
  explosion_aging_amended (1 / 100) ⟨0, 0, 0, 60, 60, 1⟩

/-- C3: a tick whose computed delta-time exceeds the 0.1 s stall
threshold is skipped entirely: the result state equals the input state in
every simulation field (buildings, enemies, interceptors, projectiles,
explosions, shield energy, combo multiplier, level timer, spawn schedule,
score and level stats); only the delta-time baseline lastTime is
restamped. -/
theorem stalled_tick_is_skipped (cfg : Config) (st : SimState) (time now : ℚ)
    (h : 1 / 10 < (time - st.lastTime) / 1000) :
    update cfg st time now = TickResult.next { st with lastTime := time } := by
  simp only [update]
  rw [if_pos h]

/-- Witness for C3: a 1 s delta-time tick on the sample state is a
no-op. -/
theorem stalled_tick_is_skipped_witness :
    update sampleCfg sampleState 1000 0 =
      TickResult.next { sampleState with lastTime := 1000 } :=
  stalled_tick_is_skipped sampleCfg sampleState 1000 0 (by norm_num [sampleState])

/-- C4: the combo multiplier rules: comboCheck and the kill-time combo
update keep the multiplier in the range 1 to 10; a kill within the 2.5 s
window increments the multiplier capped at 10; a kill at or after the
window boundary resets it to 1 before scoring; the autonomous per-tick
check resets to 1 exactly when the window is strictly exceeded and leaves
the multiplier unchanged otherwise; destroying a building forces the
multiplier to 1; and a full tick of update preserves the 1 to 10
invariant. -/
theorem combo_multiplier_rules :
    (∀ (m : ℕ) (now lk : ℚ), 1 ≤ m → m ≤ 10 →
      (1 ≤ comboCheck m now lk ∧ comboCheck m now lk ≤ 10) ∧
      (1 ≤ killComboUpdate m now lk ∧ killComboUpdate m now lk ≤ 10) ∧
      (now - lk < COMBO_TIMEOUT → killComboUpdate m now lk = min (m + 1) 10) ∧
      (COMBO_TIMEOUT ≤ now - lk → killComboUpdate m now lk = 1) ∧
      (1 < m → COMBO_TIMEOUT < now - lk → comboCheck m now lk = 1) ∧
      (now - lk ≤ COMBO_TIMEOUT → comboCheck m now lk = m)) ∧
    (∀ (cfg : Config) (e : Enemy) (r : ℚ) (bs : List Building) (st : SimState),
      (buildingImpactGo cfg e r bs st).2.1 = true →
      (buildingImpactGo cfg e r bs st).2.2.multiplier = 1) ∧
    (∀ (cfg : Config) (st0 : SimState) (time now : ℚ),
      multInv st0 → multInv (update cfg st0 time now).state) := by
  refine ⟨?_, ?_, ?_⟩
  · intro m now lk h1 h10
    refine ⟨comboCheck_multInv now lk ⟨h1, h10⟩, killComboUpdate_bounds m now lk,
      ?_, ?_, ?_, ?_⟩
    · intro h; rw [killComboUpdate, if_pos h]
    · intro h; rw [killComboUpdate, if_neg (by linarith)]
    · intro hm h; rw [comboCheck, if_pos ⟨hm, h⟩]
    · intro h; rw [comboCheck, if_neg]
      rintro ⟨-, hgt⟩
      linarith
  · intro cfg e r bs st
    exact buildingImpactGo_hit_mult cfg e r bs st
  · intro cfg st0 time now hm
    exact (update_tickRel cfg st0 time now).2.2.1 hm

/-- Witness for C4: the combo rules instantiated at multiplier 3 with a
kill 1000 ms after the previous one. -/
theorem combo_multiplier_rules_witness :
    killComboUpdate 3 1000 0 = min (3 + 1) 10 :=
  ((combo_multiplier_rules.1 3 1000 0 (by norm_num) (by norm_num)).2.2.1
    (by rw [COMBO_TIMEOUT]; norm_num))

/-- C5 counterexample: there is no single fixed radius R such that, for
every positive energy, an enemy is absorbed exactly when its distance to
the shield centre is below R: with shieldLevel 1 (max energy 100) an
enemy at distance 170 is absorbed at full energy (radius 180) but not at
energy 10 (radius 163.8), so the absorption radius depends on the
remaining energy. -/
theorem shield_radius_not_fixed_counterexample :
    ¬ ∃ R : ℚ, ∀ energy dx dy : ℚ, 0 < energy →
        shieldAbsorbs ⟨0, 0, 0, 0, 1, 0⟩ energy dx dy = distLtB dx dy R := by
  rintro ⟨R, hR⟩
  have h1 := hR 100 170 0 (by norm_num)
  have h2 := hR 10 170 0 (by norm_num)
  have e1 : shieldAbsorbs ⟨0, 0, 0, 0, 1, 0⟩ 100 170 0 = true := by
    norm_num [shieldAbsorbs, distLtB, shieldRadius, shieldMaxEnergy]
  have e2 : shieldAbsorbs ⟨0, 0, 0, 0, 1, 0⟩ 10 170 0 = false := by
    norm_num [shieldAbsorbs, distLtB, shieldRadius, shieldMaxEnergy]
  rw [e1] at h1
  rw [e2] at h2
  exact absurd (h1.trans h2.symm) (by simp)

/-- C5 amended: whenever shieldLevel and shield energy are positive, an
enemy is absorbed exactly when its distance to the fixed shield position
is below the energy-dependent radius 180 * (0.9 + 0.1 * energy / max);
absorption is an instant full kill (the outcome does not depend on the
remaining health of the enemy) that removes the enemy before the
explosion-area and ground checks of the tick and applies exactly the
kill accounting, the energy drain and the feedback explosion; when the
guard does not hold, the rest of the resolution never touches shield
energy or the shield hit time. -/
theorem shield_absorption_amended (cfg : Config) (now : ℚ) (e : Enemy) (st : SimState) :
    (shieldAbsorbs cfg.upgrades st.shieldEnergy (e.x - cfg.width / 2)
        (e.y - (cfg.height - 20)) = true →
      resolveEnemy cfg now e st = EnemyStepResult.drop
        { handleKill cfg.difficulty now e st with
          shieldEnergy := shieldDrain (handleKill cfg.difficulty now e st).shieldEnergy,
          shieldHitTime := now,
          explosions := (handleKill cfg.difficulty now e st).explosions ++
            [⟨(handleKill cfg.difficulty now e st).nextId, e.x, e.y, 5, 20, 1⟩],
          nextId := (handleKill cfg.difficulty now e st).nextId + 1 } ∧
      (∀ h2 : ℤ, resolveEnemy cfg now { e with health := h2 } st =
        resolveEnemy cfg now e st)) ∧
    (shieldAbsorbs cfg.upgrades st.shieldEnergy (e.x - cfg.width / 2)
        (e.y - (cfg.height - 20)) = false →
      (resolveEnemy cfg now e st).state.shieldEnergy = st.shieldEnergy ∧
      (resolveEnemy cfg now e st).state.shieldHitTime = st.shieldHitTime) := by
  constructor
  · intro hs
    constructor
    · rw [resolveEnemy, if_pos hs]
    · intro h2
      rw [resolveEnemy, resolveEnemy, if_pos hs,
        if_pos (show shieldAbsorbs cfg.upgrades st.shieldEnergy
          (({ e with health := h2 } : Enemy).x - cfg.width / 2)
          (({ e with health := h2 } : Enemy).y - (cfg.height - 20)) = true from hs)]
      rfl
  · intro hs
    exact resolveEnemy_no_absorb_energy cfg now e st hs

/-- Witness for C5: the sample enemy standing at the shield centre of the
sample state (energy 100, shieldLevel 1) is absorbed and the shield
energy drops from 100 to 70. -/
theorem shield_absorption_amended_witness :
    (resolveEnemy sampleCfg 0 shieldEnemy sampleState).state.shieldEnergy = 70 := by
  have h := (shield_absorption_amended sampleCfg 0 shieldEnemy sampleState).1
    (by norm_num [shieldAbsorbs, distLtB, shieldRadius, shieldMaxEnergy, sampleCfg,
      sampleUpgrades, sampleState, shieldEnemy])
  rw [h.1]
  norm_num [EnemyStepResult.state, handleKill, sampleState, shieldDrain]

/-- C6: shield energy stays in range: each absorption sets the energy to
max 0 (energy - 30) (the fixed cost 30 clamped at zero, never negative),
the concrete sequence from energy 100 is 70, 40, 10, 0, the level-start
energy equals the upgrade-derived maximum, and a full tick of update
never increases the shield energy and keeps it nonnegative (energy is
never increased mid-level). -/
theorem shield_energy_clamped_monotone (u : UpgradeStats) (x : ℚ) (hx : 0 ≤ x)
    (cfg : Config) (st0 : SimState) (time now : ℚ) :
    shieldDrain x = max 0 (x - 30) ∧
    0 ≤ shieldDrain x ∧ shieldDrain x ≤ x ∧
    shieldDrain 100 = 70 ∧ shieldDrain 70 = 40 ∧ shieldDrain 40 = 10 ∧
    shieldDrain 10 = 0 ∧
    initShieldEnergy u = shieldMaxEnergy u ∧
    (update cfg st0 time now).state.shieldEnergy ≤ st0.shieldEnergy ∧
    (0 ≤ st0.shieldEnergy → 0 ≤ (update cfg st0 time now).state.shieldEnergy) := by
  have htr := update_tickRel cfg st0 time now
  refine ⟨?_, shieldDrain_nonneg x, shieldDrain_le hx, ?_, ?_, ?_, ?_, rfl,
    htr.1, htr.2.1⟩
  · rw [shieldDrain]
    split_ifs with h
    · exact (max_eq_left (by linarith)).symm
    · exact (max_eq_right (by linarith)).symm
  all_goals norm_num [shieldDrain]

/-- Witness for C6: the absorption sequence from energy 100. -/
theorem shield_energy_clamped_monotone_witness :
    shieldDrain 100 = 70 ∧ shieldDrain 70 = 40 ∧ shieldDrain 40 = 10 ∧
    shieldDrain 10 = 0 := by
  have h := shield_energy_clamped_monotone sampleUpgrades 100 (by norm_num)
    sampleCfg sampleState 1 2
  exact ⟨h.2.2.2.1, h.2.2.2.2.1, h.2.2.2.2.2.1, h.2.2.2.2.2.2.1⟩

/-- C7: across one tick of update, building destruction is monotone (a
destroyed building never reverts, and the building list itself is never
reordered or replaced); a GAME_OVER result implies every building is
destroyed at that same tick; and a tick that does not fire GAME_OVER
cannot newly reach the all-destroyed situation (so the transition fires
in exactly the resolution pass in which the last building falls); the
level-complete early return leaves buildings untouched. -/
theorem building_destruction_permanent_gameover_sync
    (cfg : Config) (st0 : SimState) (time now : ℚ) :
    (match update cfg st0 time now with
     | TickResult.next s =>
         BuildingsRel st0.buildings s.buildings ∧
         (allDestroyed s.buildings → allDestroyed st0.buildings)
     | TickResult.levelComplete s _ _ => s.buildings = st0.buildings
     | TickResult.gameOver s _ =>
         BuildingsRel st0.buildings s.buildings ∧ allDestroyed s.buildings) := by
  have h := update_spec cfg st0 time now
  rcases hU : update cfg st0 time now with s | ⟨s, bl, ed⟩ | ⟨s, k⟩ <;> rw [hU] at h
  · exact ⟨h.1.2.2.2, h.2⟩
  · exact h.2
  · exact ⟨h.1.2.2.2, h.2.1⟩

/-- Witness for C7: the statement instantiated on the sample state with a
stalled tick. -/
theorem building_destruction_permanent_gameover_sync_witness :
    (match update sampleCfg sampleState 1000 0 with
     | TickResult.next s =>
         BuildingsRel sampleState.buildings s.buildings ∧
         (allDestroyed s.buildings → allDestroyed sampleState.buildings)
     | TickResult.levelComplete s _ _ => s.buildings = sampleState.buildings
     | TickResult.gameOver s _ =>
         BuildingsRel sampleState.buildings s.buildings ∧ allDestroyed s.buildings) :=
  building_destruction_permanent_gameover_sync sampleCfg sampleState 1000 0

/-- C8 counterexample: the spawn interval Math.random() * spawnRate has
no positive lower bound: the draw 0 yields a zero interval at any level
and difficulty, so no positive floor bounds the interval itself (the 0.4
floor applies to the base rate, not to the interval). -/
theorem spawn_interval_no_positive_floor_counterexample :
    ¬ ∃ f : ℚ, 0 < f ∧ ∀ (lvl : ℕ) (d : Difficulty) (r : ℚ),
        0 ≤ r → r < 1 → f ≤ spawnInterval lvl d r := by
  rintro ⟨f, hf, h⟩
  have h0 := h 1 Difficulty.MEDIUM 0 le_rfl (by norm_num)
  rw [spawnInterval] at h0
  simp at h0
  linarith

/-- C8 amended: the spawner schedules the next spawn at the level time
plus the interval r * (baseRate * rateMod) where r is the Math.random()
draw: for r in [0, 1) the interval is never negative and stays below the
rate bound; the base rate is floored at 0.4 s (the floor protects the
rate, not the interval, which can be arbitrarily small), decreases with
the level, and is scaled by the positive difficulty modifier. -/
theorem spawn_interval_amended (lvl l1 l2 : ℕ) (d : Difficulty) (r : ℚ)
    (h0 : 0 ≤ r) (h1 : r < 1) (hl : l1 ≤ l2) :
    0 ≤ spawnInterval lvl d r ∧
    spawnInterval lvl d r < baseSpawnRate lvl * spawnRateMod d ∧
    (2 / 5 : ℚ) ≤ baseSpawnRate lvl ∧
    baseSpawnRate l2 ≤ baseSpawnRate l1 ∧
    0 < spawnRateMod d ∧
    (∀ (cfg : Config) (st : SimState),
      st.nextSpawnTime < st.levelTime →
      (st.buildings.filter (fun b => !b.isDestroyed)).length ≠ 0 →
      (spawnStep cfg st).nextSpawnTime =
        st.levelTime + spawnInterval cfg.level cfg.difficulty cfg.rI) := by
  have hmod : 0 < spawnRateMod d := by
    rcases d <;> norm_num [spawnRateMod]
  have hbase : (2 / 5 : ℚ) ≤ baseSpawnRate lvl := le_max_left _ _
  have hpos : 0 < baseSpawnRate lvl * spawnRateMod d :=
    mul_pos (lt_of_lt_of_le (by norm_num) hbase) hmod
  refine ⟨mul_nonneg h0 (le_of_lt hpos), ?_, hbase, ?_, hmod, ?_⟩
  · calc spawnInterval lvl d r = r * (baseSpawnRate lvl * spawnRateMod d) := rfl
      _ < 1 * (baseSpawnRate lvl * spawnRateMod d) := by
          exact mul_lt_mul_of_pos_right h1 hpos
      _ = baseSpawnRate lvl * spawnRateMod d := one_mul _
  · refine max_le_max le_rfl ?_
    have : (l1 : ℚ) ≤ (l2 : ℚ) := by exact_mod_cast hl
    nlinarith
  · intro cfg st hspawn hactive
    rw [spawnStep, if_pos hspawn]
    simp only [if_neg hactive]

/-- Witness for C8: the amended statement at level 1, draw one half. -/
theorem spawn_interval_amended_witness :
    0 ≤ spawnInterval 1 Difficulty.MEDIUM (1 / 2) :=
  (spawn_interval_amended 1 1 2 Difficulty.MEDIUM (1 / 2) (by norm_num) (by norm_num)
    (by norm_num)).1

/-- C9: a malformed (negative) upgrade level is not treated as zero: it
propagates linearly into the derived simulation parameters, so each
parameter at level -1 differs from its level-zero value (for the shield
the propagated maximum energy is even negative). -/
theorem negative_upgrade_levels_propagate :
    interceptorSpeed ⟨-1, 0, 0, 0, 0, 0⟩ = 450 ∧
    interceptorSpeed ⟨0, 0, 0, 0, 0, 0⟩ = 600 ∧
    explosionMaxRadius ⟨0, -1, 0, 0, 0, 0⟩ = 45 ∧
    explosionMaxRadius ⟨0, 0, 0, 0, 0, 0⟩ = 60 ∧
    fireCooldown ⟨0, 0, -1, 0, 0, 0⟩ = 550 ∧
    fireCooldown ⟨0, 0, 0, 0, 0, 0⟩ = 500 ∧
    shieldMaxEnergy ⟨0, 0, 0, 0, -1, 0⟩ = -100 ∧
    shieldMaxEnergy ⟨0, 0, 0, 0, 0, 0⟩ = 0 ∧
    turretCooldown ⟨0, 0, 0, -1, 0, 0⟩ = 1100 ∧
    turretCooldown ⟨0, 0, 0, 0, 0, 0⟩ = 1000 := by
  norm_num [interceptorSpeed, explosionMaxRadius, fireCooldown, shieldMaxEnergy,
    turretCooldown]

/-- C10: a canvas click while PLAYING that arrives less than fireCooldown
milliseconds after the previously accepted shot is a complete no-op on
game state (no interceptor is created, the last-shot timestamp and
everything else are unchanged); fireCooldown is bounded below by 100 ms
for every upgrade level, so any click within 100 ms of the last accepted
shot is ignored regardless of the rate upgrade. -/
theorem fire_within_cooldown_noop (u : UpgradeStats) (cw ch now cx cy : ℚ)
    (st : SimState) (h : now - st.lastShotTime < fireCooldown u) :
    handleCanvasClick u GameState.PLAYING cw ch now cx cy st = st ∧
    100 ≤ fireCooldown u ∧
    (∀ n2, n2 - st.lastShotTime < 100 →
      handleCanvasClick u GameState.PLAYING cw ch n2 cx cy st = st) := by
  refine ⟨?_, le_max_left _ _, ?_⟩
  · rw [handleCanvasClick]
    simp [h]
  · intro n2 h2
    rw [handleCanvasClick]
    have : n2 - st.lastShotTime < fireCooldown u :=
      lt_of_lt_of_le h2 (le_max_left _ _)
    simp [this]

/-- Witness for C10: a click 50 ms after the last shot on the sample
state (cooldown 500 ms at rate level 0) changes nothing. -/
theorem fire_within_cooldown_noop_witness :
    handleCanvasClick sampleUpgrades GameState.PLAYING 800 600 50 10 20 sampleState =
      sampleState :=
  (fire_within_cooldown_noop sampleUpgrades 800 600 50 10 20 sampleState
    (by norm_num [sampleState, fireCooldown, sampleUpgrades])).1
